import Mathlib

deriving instance DecidableEq for Except

/-
Verification development for the stub generator in mypy/stubgen.py.

The generator is a single-pass visitor over a parsed syntax tree. Its
mutable run state (output buffer, helper-symbol set, import-line
sequence, indentation string, declaration-scope stack, formatting
state) is embedded here as the structure GenState, and each visit
method of StubGenerator is embedded as a function from GenState to
Except String GenState. Python runtime failures that the code can hit
(UnboundLocalError on the blank-line slot variable, IndexError on
positional list accesses) are embedded as Except.error results.
Recursions over the tree carry a Nat fuel argument so that every
definition is executable by kernel reduction; fuel exhaustion is an
artifact error that never occurs at the concrete depths used below.
-/

namespace Stubgen

/-- Formatting-state constants, mirroring the module-level constants
EMPTY, FUNC, CLASS, EMPTY_CLASS, VAR of stubgen.py (Python uses plain
strings for these). -/
def EMPTY : String := "EMPTY"

def FUNC : String := "FUNC"

def CLASS : String := "CLASS"

def EMPTY_CLASS : String := "EMPTY_CLASS"

def VAR : String := "VAR"

/-- Parameter kind tags from mypy.nodes (ARG_POS, ARG_OPT, ARG_STAR,
ARG_NAMED, ARG_STAR2). -/
inductive ArgKind where
  | ARG_POS
  | ARG_OPT
  | ARG_STAR
  | ARG_NAMED
  | ARG_STAR2
deriving DecidableEq, Repr

/-- Expression shapes of mypy.nodes that stubgen.py pattern-matches on.
callExpr and indexExpr stand for expression shapes that match none of
the literal patterns of the default-value inference table. -/
inductive Expr where
  | intExpr (value : Nat)
  | strExpr (value : String)
  | bytesExpr (value : String)
  | floatExpr (value : String)
  | unaryExpr (op : String) (expr : Expr)
  | nameExpr (name : String)
  | memberExpr (expr : Expr) (name : String)
  | comparisonExpr (operators : List String) (operands : List Expr)
  | tupleExpr (items : List Expr)
  | listExpr (items : List Expr)
  | callExpr (callee : Expr) (args : List Expr)
  | indexExpr (base : Expr) (index : Expr)

mutual
/-- Statement shapes of mypy.nodes that the traverser dispatches on.
ifStmt carries the condition list o.expr, the block list o.body and
the else block (empty list for an absent else part); passStmt stands
for any statement kind the generator has no visit method for. -/
inductive Stmt where
  | funcDefStmt (f : FuncDef)
  | decorator (decorators : List Expr) (func : FuncDef)
  | classDef (name : String) (baseTypeExprs : List Expr) (defs : List Stmt)
  | assignmentStmt (lvalues : List Expr) (rvalue : Expr)
  | ifStmt (expr : List Expr) (body : List (List Stmt)) (elseBody : List Stmt)
  | importAll (id : String)
  | passStmt

/-- FuncDef of mypy.nodes: the fields visit_func_def reads are the
name, o.args (parameter names), o.arg_kinds, o.init (per-parameter
default rvalue, none when absent) and the body. -/
inductive FuncDef where
  | mk (name : String) (args : List String) (argKinds : List ArgKind)
      (init : List (Option Expr)) (body : List Stmt)
end

def FuncDef.name : FuncDef → String
  | .mk n _ _ _ _ => n

def FuncDef.args : FuncDef → List String
  | .mk _ a _ _ _ => a

def FuncDef.argKinds : FuncDef → List ArgKind
  | .mk _ _ k _ _ => k

def FuncDef.init : FuncDef → List (Option Expr)
  | .mk _ _ _ i _ => i

def FuncDef.body : FuncDef → List Stmt
  | .mk _ _ _ _ b => b

/-- Python substring membership on character lists: needle occurs as a
contiguous run somewhere in the haystack. -/
def charListHasSub (needle : List Char) : List Char → Bool
  | [] => needle.isEmpty
  | c :: t => needle.isPrefixOf (c :: t) || charListHasSub needle t

/-- The Python expression `sub in s` on strings. -/
def strContainsSub (s sub : String) : Bool :=
  charListHasSub sub.data s.data

/-- Python str.startswith, phrased on the character list so that it is
kernel-reducible. -/
def strStartsWith (s pre : String) : Bool :=
  pre.data.isPrefixOf s.data

/-- Python str.endswith, phrased on the character list so that it is
kernel-reducible. -/
def strEndsWith (s post : String) : Bool :=
  post.data.isSuffixOf s.data

/-- The mutable per-run state of one StubGenerator instance:
_output, _import_lines, _imports, _indent, _vars, _state, plus the
_classes set assigned by visit_mypy_file. The top of the _vars stack
is the head of the list here (Python keeps it at the end). -/
structure GenState where
  output : List String
  import_lines : List String
  imports : List String
  indent : String
  vars : List (List String)
  state : String
  classes : List String
deriving DecidableEq, Repr

/-- The state built by StubGenerator.__init__. -/
def initState : GenState :=
  { output := [], import_lines := [], imports := [], indent := "",
    vars := [[]], state := EMPTY, classes := [] }

/-- StubGenerator.add. -/
def add (g : GenState) (s : String) : GenState :=
  { g with output := g.output ++ [s] }

/-- StubGenerator.add_import: record a helper symbol once, in
first-registration order. -/
def add_import (g : GenState) (name : String) : GenState :=
  if name ∈ g.imports then g else { g with imports := g.imports ++ [name] }

/-- StubGenerator.add_import_line: verbatim, order-preserving, not
deduplicated. -/
def add_import_line (g : GenState) (line : String) : GenState :=
  { g with import_lines := g.import_lines ++ [line] }

/-- StubGenerator.is_private_name. -/
def is_private_name (name : String) : Bool :=
  strStartsWith name "_" &&
    (!(strEndsWith name "__") || name == "__all__" || name == "__author__"
      || name == "__version__")

/-- StubGenerator.add_init: declare a placeholder variable in the
current scope, at most once per scope and never for a private name.
Returns the new state and whether the name was newly declared. -/
def add_init (g : GenState) (lvalue : String) : GenState × Bool :=
  if lvalue ∈ g.vars.headD [] then (g, false)
  else if is_private_name lvalue then (g, false)
  else
    let g1 := { g with vars := (g.vars.headD [] ++ [lvalue]) :: g.vars.tail }
    let g2 := add g1 (g1.indent ++ lvalue ++ " = Undefined(Any)\n")
    let g3 := add_import g2 "Undefined"
    let g4 := add_import g3 "Any"
    (g4, true)

/-- StubGenerator.output: synthesized import header followed by the
concatenated output buffer. -/
def output (g : GenState) : String :=
  let imports :=
    if g.imports ≠ [] then
      "from typing import " ++ String.intercalate ", " g.imports ++ "\n"
    else ""
  let imports :=
    if g.import_lines ≠ [] then imports ++ String.join g.import_lines
    else imports
  let imports := if imports ≠ "" then imports ++ "\n" else imports
  imports ++ String.join g.output

/-- The attribute access `%s` formatting of init.expr.value inside the
UnaryExpr branch of visit_func_def: only literal expressions of mypy
carry a value attribute; any other shape raises AttributeError. -/
def exprValueStr : Expr → Option String
  | .intExpr v => some (toString v)
  | .strExpr v => some v
  | .bytesExpr v => some v
  | .floatExpr v => some v
  | _ => none

/-- The default-value inference chain of visit_func_def, applied to
the default rvalue: first match wins; the final else branch registers
the helper symbol Undefined and renders the placeholder token. -/
def renderDefault (g : GenState) (rv : Expr) : Except String (GenState × String) :=
  match rv with
  | .intExpr v => .ok (g, toString v)
  | .strExpr _ => .ok (g, "\x27\x27")
  | .bytesExpr _ => .ok (g, "b\x27\x27")
  | .floatExpr _ => .ok (g, "0.0")
  | .unaryExpr _ inner =>
    match exprValueStr inner with
    | some v => .ok (g, "-" ++ v)
    | none => .error "AttributeError: value"
  | .nameExpr n =>
    if n = "None" then .ok (g, n)
    else .ok (add_import g "Undefined", "Undefined")
  | _ => .ok (add_import g "Undefined", "Undefined")

/-- The parameter-list loop of visit_func_def: walks zip(o.args,
o.arg_kinds) with index i, fetching o.init[i] positionally, and
accumulates the rendered parameter strings. -/
def buildArgsAux (g : GenState) :
    List (String × ArgKind) → List (Option Expr) → Nat → List String →
    Except String (GenState × List String)
  | [], _, _, args => .ok (g, args)
  | (name, kind) :: rest, inits, i, args =>
    match inits.get? i with
    | none => .error "IndexError: list index out of range"
    | some initOpt =>
      match initOpt with
      | some rv =>
        let args1 :=
          if kind = ArgKind.ARG_NAMED ∧ "*" ∉ args then args ++ ["*"] else args
        match renderDefault g rv with
        | .error e => .error e
        | .ok (g1, txt) =>
          buildArgsAux g1 rest inits (i + 1) (args1 ++ [name ++ "=" ++ txt])
      | none =>
        let arg :=
          if kind = ArgKind.ARG_STAR then "*" ++ name
          else if kind = ArgKind.ARG_STAR2 then "**" ++ name
          else name
        buildArgsAux g rest inits (i + 1) (args ++ [arg])

/-- find_self_initializers: full traversal of a function body with
visit_assignment_stmt overridden to collect lvalue.name whenever
o.lvalues[0] is a member access on the bare name self. All other
statement kinds are traversed into by the default traverser. Block
lists of an if statement are visited sequentially, embedded here as
visiting their concatenation. -/
def find_self_inits_list : Nat → List Stmt → List String → Except String (List String)
  | _, [], acc => .ok acc
  | 0, _ :: _, _ => .error "RecursionError: maximum recursion depth exceeded"
  | fuel + 1, s :: rest, acc =>
    let racc : Except String (List String) :=
      match s with
      | .assignmentStmt lvs _ =>
        match lvs.get? 0 with
        | none => .error "IndexError: list index out of range"
        | some (Expr.memberExpr (Expr.nameExpr receiver) attr) =>
          .ok (if receiver = "self" then acc ++ [attr] else acc)
        | some _ => .ok acc
      | .classDef _ _ defs => find_self_inits_list fuel defs acc
      | .funcDefStmt f => find_self_inits_list fuel f.body acc
      | .decorator _ f => find_self_inits_list fuel f.body acc
      | .ifStmt _ bodies elseBody =>
        find_self_inits_list fuel (bodies.flatten ++ elseBody) acc
      | _ => .ok acc
    match racc with
    | .error e => .error e
    | .ok acc2 => find_self_inits_list fuel rest acc2

/-- find_self_initializers(fdef) of stubgen.py. -/
def find_self_initializers (fuel : Nat) (body : List Stmt) :
    Except String (List String) :=
  find_self_inits_list fuel body []

/-- find_classes: traversal whose visit_class_def records the class
name and, because the override does not call the superclass method,
does not descend into the recorded class body. The default traverser
still descends into function bodies and if blocks. -/
def find_classes_list : Nat → List Stmt → List String → Except String (List String)
  | _, [], acc => .ok acc
  | 0, _ :: _, _ => .error "RecursionError: maximum recursion depth exceeded"
  | fuel + 1, s :: rest, acc =>
    let racc : Except String (List String) :=
      match s with
      | .classDef cname _ _ => .ok (if cname ∈ acc then acc else acc ++ [cname])
      | .funcDefStmt f => find_classes_list fuel f.body acc
      | .decorator _ f => find_classes_list fuel f.body acc
      | .ifStmt _ bodies elseBody =>
        find_classes_list fuel (bodies.flatten ++ elseBody) acc
      | _ => .ok acc
    match racc with
    | .error e => .error e
    | .ok acc2 => find_classes_list fuel rest acc2

/-- find_classes(cdef) of stubgen.py (the result is used only through
membership, so a duplicate-free list embeds the Python set). -/
def find_classes (fuel : Nat) (defs : List Stmt) : Except String (List String) :=
  find_classes_list fuel defs []

/-- StubGenerator.visit_func_def. The fuel only feeds the
find_self_initializers traversal of the body. -/
def visit_func_def (fuel : Nat) (g : GenState) (f : FuncDef) :
    Except String GenState :=
  if is_private_name f.name then .ok g
  else
    let g :=
      if g.indent = "" ∧ g.state ≠ EMPTY ∧ g.state ≠ FUNC then add g "\n" else g
    match find_self_initializers fuel f.body with
    | .error e => .error e
    | .ok selfInits =>
      let g := selfInits.foldl (fun g i => (add_init g i).1) g
      let g := add g (g.indent ++ "def " ++ f.name ++ "(")
      match buildArgsAux g (f.args.zip f.argKinds) f.init 0 [] with
      | .error e => .error e
      | .ok (g, args) =>
        let g := add g (String.intercalate ", " args)
        let g := add g "): pass\n"
        .ok { g with state := FUNC }

/-- StubGenerator.visit_decorator: emit the recognized decorator lines,
then continue into the wrapped function definition. -/
def visit_decorator (fuel : Nat) (g : GenState) (decorators : List Expr)
    (func : FuncDef) : Except String GenState :=
  let g := decorators.foldl
    (fun g d =>
      match d with
      | .nameExpr n =>
        if n = "property" ∨ n = "staticmethod" ∨ n = "classmethod" then
          add g (g.indent ++ "@" ++ n ++ "\n")
        else g
      | .memberExpr (Expr.nameExpr en) n =>
        if n = "setter" then add g (g.indent ++ "@" ++ en ++ ".setter\n") else g
      | _ => g)
    g
  visit_func_def fuel g func

/-- StubGenerator.visit_assignment_stmt: only the first left-hand side
is examined (o.lvalues[0]); a tuple or list pattern contributes its
items; each simple-name target goes through add_init, with one blank
separator line at most, emitted before the first name target when at
top level and the formatting state is neither EMPTY nor VAR. -/
def visit_assignment_stmt (g : GenState) (lvalues : List Expr) :
    Except String GenState :=
  match lvalues.get? 0 with
  | none => .error "IndexError: list index out of range"
  | some lvalue =>
    let items :=
      match lvalue with
      | .tupleExpr items => items
      | .listExpr items => items
      | _ => [lvalue]
    let result := items.foldl
      (fun (acc : GenState × Bool × Bool) item =>
        let (g, sep, found) := acc
        match item with
        | .nameExpr nm =>
          let (g, sep) :=
            if ¬sep ∧ g.indent = "" ∧ g.state ≠ EMPTY ∧ g.state ≠ VAR then
              (add g "\n", true)
            else (g, sep)
          let (g, newly) := add_init g nm
          (g, sep, newly || found)
        | _ => (g, sep, found))
      (g, false, false)
    .ok (if result.2.2 then { result.1 with state := VAR } else result.1)

/-- The condition test of visit_if_stmt: a ComparisonExpr whose first
operand is a bare name and whose second is a string literal, with the
name equal to the name of the module attribute and the literal
containing the entry-point substring. The comparison operators are
never examined. Positional accesses into the operand list can raise
IndexError exactly as in Python (the second operand is only accessed
once the first is known to be a bare name). -/
def isEntryPointGuard (e : Expr) : Except String Bool :=
  match e with
  | .comparisonExpr _ operands =>
    match operands.get? 0 with
    | none => .error "IndexError: list index out of range"
    | some (Expr.nameExpr n0) =>
      match operands.get? 1 with
      | none => .error "IndexError: list index out of range"
      | some (Expr.strExpr v1) =>
        .ok (n0 == "__name__" && strContainsSub v1 "__main__")
      | some _ => .ok false
    | some _ => .ok false
  | _ => .ok false

/-- Replace the last element of the output buffer, as the Python
index assignment to self._output[-1] does (the call sites guarantee a
nonempty buffer because the class header was just appended). -/
def modLast (f : String → String) : List String → List String
  | [] => []
  | a :: rest =>
    match rest with
    | [] => [f a]
    | b :: t => a :: modLast f (b :: t)

/-- The per-base test of the loop in visit_class_def: a base
reference is kept exactly when it is a bare name that is in the
collected class-name set or ends with Exception or Error. -/
def keep_base (g : GenState) : Expr → Option String
  | .nameExpr bn =>
    if bn ∈ g.classes ∨ strEndsWith bn "Exception" = true ∨ strEndsWith bn "Error" = true
    then some bn else none
  | _ => none

/-- The base_types list built by the loop in visit_class_def. -/
def base_types_of (g : GenState) (bases : List Expr) : List String :=
  bases.filterMap (keep_base g)

/-- The part of visit_class_def before the body traversal: reserve the
blank-line slot (recording its index, only on the top-level path),
emit the class header with the filtered base list, record the output
length n, indent by one unit and push a fresh scope. -/
def classHeader (g : GenState) (name : String) (baseTypeExprs : List Expr) :
    GenState × Option Nat × Nat :=
  let sep : Option Nat :=
    if g.indent = "" ∧ g.state ≠ EMPTY then some g.output.length else none
  let g := if g.indent = "" ∧ g.state ≠ EMPTY then add g "\n" else g
  let g := add g ("class " ++ name)
  let bts := base_types_of g baseTypeExprs
  let g :=
    if bts ≠ [] then add g ("(" ++ String.intercalate ", " bts ++ ")") else g
  let g := add g ":\n"
  let n := g.output.length
  let g := { g with indent := g.indent ++ "    ", vars := [] :: g.vars }
  (g, sep, n)

/-- The part of visit_class_def after the body traversal: unindent and
pop the scope; if the body appended nothing, retract the blank-line
slot when the formatting state is EMPTY_CLASS (reading the slot index
fails with UnboundLocalError when it was never assigned), rewrite the
trailing newline of the header into a pass suffix and set the state to
EMPTY_CLASS; otherwise set it to CLASS. -/
def classFooter (sep : Option Nat) (n : Nat) (g0 : GenState) :
    Except String GenState :=
  let g := { g0 with indent := g0.indent.dropRight 4, vars := g0.vars.tail }
  if g.output.length = n then
    let retracted : Except String GenState :=
      if g.state = EMPTY_CLASS then
        match sep with
        | none => .error "UnboundLocalError: local variable sep referenced before assignment"
        | some i => .ok { g with output := g.output.set i "" }
      else .ok g
    match retracted with
    | .error e => .error e
    | .ok g =>
      .ok { g with
            output := modLast (fun s => s.dropRight 1 ++ " pass\n") g.output,
            state := EMPTY_CLASS }
  else .ok { g with state := CLASS }

/-- The statement traversal of one generation run. Fuel is consumed
when descending into a class body or an if statement, so that the
recursion is structural; block lists of an if statement are visited
sequentially, embedded as visiting their concatenation. -/
def visitStmts : Nat → GenState → List Stmt → Except String GenState
  | _, g, [] => .ok g
  | 0, _, _ :: _ => .error "RecursionError: maximum recursion depth exceeded"
  | fuel + 1, g, s :: rest =>
    let step : Except String GenState :=
      match s with
      | .funcDefStmt f => visit_func_def fuel g f
      | .decorator ds f => visit_decorator fuel g ds f
      | .classDef name bases defs =>
        let hdr := classHeader g name bases
        match visitStmts fuel hdr.1 defs with
        | .error e => .error e
        | .ok g2 => classFooter hdr.2.1 hdr.2.2 g2
      | .assignmentStmt lvs _ => visit_assignment_stmt g lvs
      | .ifStmt exprs bodies elseBody =>
        match exprs.get? 0 with
        | none => .error "IndexError: list index out of range"
        | some e =>
          match isEntryPointGuard e with
          | .error err => .error err
          | .ok true => .ok g
          | .ok false => visitStmts fuel g (bodies.flatten ++ elseBody)
      | .importAll mid => .ok (add_import_line g ("from " ++ mid ++ " import *\n"))
      | .passStmt => .ok g
    match step with
    | .error e => .error e
    | .ok gnext => visitStmts fuel gnext rest

/-- StubGenerator.visit_class_def as a standalone function: header,
body traversal, footer. -/
def visit_class_def (fuel : Nat) (g : GenState) (name : String)
    (bases : List Expr) (defs : List Stmt) : Except String GenState :=
  let hdr := classHeader g name bases
  match visitStmts fuel hdr.1 defs with
  | .error e => .error e
  | .ok g2 => classFooter hdr.2.1 hdr.2.2 g2

/-- StubGenerator.visit_if_stmt as a standalone function: skip the
whole conditional when the first condition passes the entry-point
test, otherwise traverse every branch as if unconditional. -/
def visit_if_stmt (fuel : Nat) (g : GenState) (exprs : List Expr)
    (bodies : List (List Stmt)) (elseBody : List Stmt) :
    Except String GenState :=
  match exprs.get? 0 with
  | none => .error "IndexError: list index out of range"
  | some e =>
    match isEntryPointGuard e with
    | .error err => .error err
    | .ok true => .ok g
    | .ok false => visitStmts fuel g (bodies.flatten ++ elseBody)

/-- StubGenerator.visit_mypy_file on a fresh generator: run
find_classes over the module, store the result, then traverse the
top-level statements. -/
def visit_mypy_file (fuel : Nat) (defs : List Stmt) : Except String GenState :=
  match find_classes fuel defs with
  | .error e => .error e
  | .ok cls => visitStmts fuel { initState with classes := cls } defs

/-- generate_stub without its file handling: the text the driver
writes for one parsed module. -/
def generate_stub_text (fuel : Nat) (defs : List Stmt) : Except String String :=
  match visit_mypy_file fuel defs with
  | .error e => .error e
  | .ok g => .ok (output g)

/-- The expression shapes matched by the default-value inference table
before its catch-all branch: the five literal patterns plus the bare
name None (a bare name other than None falls through to the
catch-all). -/
def isLiteralShape : Expr → Bool
  | .intExpr _ => true
  | .strExpr _ => true
  | .bytesExpr _ => true
  | .floatExpr _ => true
  | .unaryExpr _ _ => true
  | .nameExpr n => n = "None"
  | _ => false

/-- The name-privacy rule as the specification words it: the three
special dunder names are always private; otherwise a name is private
exactly when it starts with an underscore and does not end with a
double underscore. Stated separately from is_private_name so the two
can be compared. -/
def spec_private_name (n : String) : Bool :=
  if n = "__all__" ∨ n = "__author__" ∨ n = "__version__" then true
  else strStartsWith n "_" && !(strEndsWith n "__")

/-- The serialization as the specification words it: the helper-import
line when the Helper-Symbol Set is non-empty, then the recorded
wildcard-import lines verbatim in order, then one blank line if any
material for the header was emitted, then the output buffer in
emission order. Stated separately from output for comparison. -/
def spec_serialize (g : GenState) : String :=
  (if g.imports ≠ [] then
    "from typing import " ++ String.intercalate ", " g.imports ++ "\n"
   else "")
  ++ String.join g.import_lines
  ++ (if g.imports ≠ [] ∨ String.join g.import_lines ≠ "" then "\n" else "")
  ++ String.join g.output

/- Auxiliary facts about the elementary state operations, used
throughout the claim proofs. -/

@[simp] theorem add_vars (g : GenState) (s : String) : (add g s).vars = g.vars := rfl

@[simp] theorem add_state (g : GenState) (s : String) : (add g s).state = g.state := rfl

@[simp] theorem add_imports (g : GenState) (s : String) : (add g s).imports = g.imports := rfl

@[simp] theorem add_indent (g : GenState) (s : String) : (add g s).indent = g.indent := rfl

@[simp] theorem add_output (g : GenState) (s : String) :
    (add g s).output = g.output ++ [s] := rfl

@[simp] theorem add_import_vars (g : GenState) (n : String) :
    (add_import g n).vars = g.vars := by
  unfold add_import; split <;> rfl

@[simp] theorem add_import_state (g : GenState) (n : String) :
    (add_import g n).state = g.state := by
  unfold add_import; split <;> rfl

@[simp] theorem add_import_output (g : GenState) (n : String) :
    (add_import g n).output = g.output := by
  unfold add_import; split <;> rfl

@[simp] theorem add_import_indent (g : GenState) (n : String) :
    (add_import g n).indent = g.indent := by
  unfold add_import; split <;> rfl

@[simp] theorem visitStmts_nil (fuel : Nat) (g : GenState) :
    visitStmts fuel g [] = .ok g := by
  cases fuel <;> rfl

/-- C1: the catch-all branch of the default-value inference table
renders the placeholder token Undefined and registers only the helper
symbol Undefined; the helper symbol Any is not registered on this
path (amended from the claim, which asserted that both Undefined and
Any are registered). -/
theorem C1_fallback_registers_only_Undefined (g : GenState) (e : Expr)
    (h : isLiteralShape e = false) :
    renderDefault g e = .ok (add_import g "Undefined", "Undefined") := by
  cases e <;> simp_all [isLiteralShape, renderDefault]

/-- C1 witness: the catch-all theorem applied to a call expression as
default value. -/
theorem C1_witness :
    renderDefault initState (Expr.callExpr (Expr.nameExpr "some_call") []) =
      .ok (add_import initState "Undefined", "Undefined") :=
  C1_fallback_registers_only_Undefined initState
    (Expr.callExpr (Expr.nameExpr "some_call") []) (by decide)

/-- C1 counterexample: visiting def f(x=some_call()) registers only
the helper symbol Undefined, and the serialized module imports only
Undefined — the helper symbol Any is never registered, contrary to
the claim. -/
theorem C1_counterexample :
    (visit_func_def 5 initState
        (FuncDef.mk "f" ["x"] [ArgKind.ARG_OPT]
          [some (Expr.callExpr (Expr.nameExpr "some_call") [])] [])).map
        GenState.imports = .ok ["Undefined"]
    ∧ generate_stub_text 5
        [Stmt.funcDefStmt (FuncDef.mk "f" ["x"] [ArgKind.ARG_OPT]
          [some (Expr.callExpr (Expr.nameExpr "some_call") [])] [])] =
      .ok "from typing import Undefined\n\ndef f(x=Undefined): pass\n"
    ∧ "Any" ∉ (["Undefined"] : List String) := by
  refine ⟨by decide, by decide, by decide⟩

/-- C2: visiting any non-private function definition sets the
Formatting State to FUNC, at any indentation — an indented method
visit does change the state (amended from the claim, which asserted
that indented declarations never change it; the state only matches
the last top-level declaration because the enclosing class visit
overwrites it afterwards). -/
theorem C2_func_visit_sets_state (fuel : Nat) (g g2 : GenState) (f : FuncDef)
    (hp : is_private_name f.name = false)
    (hok : visit_func_def fuel g f = .ok g2) : g2.state = FUNC := by
  unfold visit_func_def at hok
  rw [hp] at hok
  simp only [Bool.false_eq_true, if_false] at hok
  split at hok
  · exact absurd hok (by simp)
  · split at hok
    · exact absurd hok (by simp)
    · rename_i g3 args heq
      simp only [Except.ok.injEq] at hok
      subst hok
      rfl

/-- C2 witness: the amended theorem applied to a method visited at
one unit of indentation. -/
theorem C2_witness :
    ∃ g2, visit_func_def 1
        { initState with indent := "    " }
        (FuncDef.mk "m" ["self"] [ArgKind.ARG_POS] [none] []) = .ok g2
      ∧ g2.state = FUNC := by
  have hok : visit_func_def 1 { initState with indent := "    " }
      (FuncDef.mk "m" ["self"] [ArgKind.ARG_POS] [none] []) =
      .ok { output := ["    def m(", "self", "): pass\n"], import_lines := [],
            imports := [], indent := "    ", vars := [[]], state := FUNC,
            classes := [] } := by decide
  exact ⟨_, hok, C2_func_visit_sets_state 1 _ _ _ (by decide) hok⟩

/-- C2 counterexample: a method visited at nonzero indentation while
the Formatting State is EMPTY leaves the state FUNC, so visiting an
indented declaration does change the Formatting State. -/
theorem C2_counterexample :
    ({ initState with indent := "    " } : GenState).state = EMPTY
    ∧ (visit_func_def 1 { initState with indent := "    " }
        (FuncDef.mk "m" ["self"] [ArgKind.ARG_POS] [none] [])).map
        GenState.state = .ok FUNC
    ∧ FUNC ≠ EMPTY := by
  refine ⟨by decide, by decide, by decide⟩

theorem add_init_of_mem (g : GenState) (n : String) (h : n ∈ g.vars.headD []) :
    add_init g n = (g, false) := by
  unfold add_init
  rw [if_pos h]

theorem add_init_of_priv (g : GenState) (n : String)
    (h : is_private_name n = true) : add_init g n = (g, false) := by
  unfold add_init
  split
  · rfl
  · simp [h]

theorem add_init_fresh (g : GenState) (n : String)
    (h1 : n ∉ g.vars.headD []) (h2 : is_private_name n = false) :
    add_init g n =
      (add_import (add_import
        (add { g with vars := (g.vars.headD [] ++ [n]) :: g.vars.tail }
          (g.indent ++ n ++ " = Undefined(Any)\n"))
        "Undefined") "Any", true) := by
  unfold add_init
  rw [if_neg h1, if_neg (by rw [h2]; exact Bool.false_ne_true)]

/-- C5: declaring the same simple name twice in the same scope is a
no-op the second time: after any add_init for a name, a second
add_init for that name in the same scope returns the state unchanged
and reports not newly declared; concretely, two module-level
assignments to x produce exactly one placeholder declaration. -/
theorem C5_declare_at_most_once :
    (∀ (g : GenState) (n : String), n ∈ g.vars.headD [] →
      add_init g n = (g, false))
    ∧ (∀ (g : GenState) (n : String),
      add_init (add_init g n).1 n = ((add_init g n).1, false))
    ∧ generate_stub_text 6
        [Stmt.assignmentStmt [Expr.nameExpr "x"] (Expr.intExpr 1),
         Stmt.assignmentStmt [Expr.nameExpr "x"] (Expr.intExpr 2)] =
      .ok "from typing import Undefined, Any\n\nx = Undefined(Any)\n" := by
  refine ⟨add_init_of_mem, ?_, ?_⟩
  · intro g n
    by_cases h1 : n ∈ g.vars.headD []
    · rw [add_init_of_mem g n h1, add_init_of_mem g n h1]
    · by_cases h2 : is_private_name n = true
      · rw [add_init_of_priv g n h2, add_init_of_priv g n h2]
      · rw [add_init_fresh g n h1 (by simpa using h2)]
        apply add_init_of_mem
        simp
  · decide

/-- C5 witness: the per-scope clause applied to a scope already
holding the name x. -/
theorem C5_witness :
    add_init { initState with vars := [["x"]] } "x" =
      ({ initState with vars := [["x"]] }, false) :=
  C5_declare_at_most_once.1 { initState with vars := [["x"]] } "x" (by decide)

/-- C6: the name-privacy predicate is pure and agrees with the rule
as specified (leading underscore and not dunder-shaped, except that
__all__, __author__ and __version__ are always private), and every
private name is excluded: a private function produces no output and
no state change, and a private name is never declared as a
placeholder variable. -/
theorem C6_privacy_rule :
    (∀ n, is_private_name n = spec_private_name n)
    ∧ (∀ (fuel : Nat) (g : GenState) (f : FuncDef),
        is_private_name f.name = true → visit_func_def fuel g f = .ok g)
    ∧ (∀ (g : GenState) (n : String),
        is_private_name n = true → add_init g n = (g, false)) := by
  refine ⟨?_, ?_, ?_⟩
  · intro n
    by_cases h1 : n = "__all__"
    · subst h1; decide
    · by_cases h2 : n = "__author__"
      · subst h2; decide
      · by_cases h3 : n = "__version__"
        · subst h3; decide
        · unfold is_private_name spec_private_name
          rw [if_neg (by tauto)]
          rw [beq_false_of_ne h1, beq_false_of_ne h2, beq_false_of_ne h3]
          simp
  · intro fuel g f h
    simp [visit_func_def, h]
  · intro g n h
    exact add_init_of_priv g n h

/-- C6 witness: the exclusion parts applied to the private names
_hidden and __version__. -/
theorem C6_witness :
    visit_func_def 3 initState (FuncDef.mk "_hidden" [] [] [] []) = .ok initState
    ∧ add_init initState "__version__" = (initState, false) := by
  exact ⟨C6_privacy_rule.2.1 3 initState (FuncDef.mk "_hidden" [] [] [] []) (by decide),
         C6_privacy_rule.2.2 initState "__version__" (by decide)⟩

/-- C10: a keyword-only parameter without a default renders as the
bare parameter name with no star separator (indistinguishable from a
positional parameter); the bare star is inserted exactly before a
keyword-only parameter that has a default, and only when no bare star
entry is already present in the rendered list; parameters of any
other kind with a default never trigger the star. -/
theorem C10_keyword_only_rendering :
    (∀ (g : GenState) (inits : List (Option Expr)) (i : Nat)
        (args : List String) (name : String) (rest : List (String × ArgKind)),
      inits.get? i = some none →
      buildArgsAux g ((name, ArgKind.ARG_NAMED) :: rest) inits i args =
        buildArgsAux g rest inits (i + 1) (args ++ [name]))
    ∧ (∀ (g gr : GenState) (inits : List (Option Expr)) (i : Nat)
        (args : List String) (name txt : String) (rv : Expr)
        (rest : List (String × ArgKind)),
      inits.get? i = some (some rv) → "*" ∉ args →
      renderDefault g rv = .ok (gr, txt) →
      buildArgsAux g ((name, ArgKind.ARG_NAMED) :: rest) inits i args =
        buildArgsAux gr rest inits (i + 1) (args ++ ["*", name ++ "=" ++ txt]))
    ∧ (∀ (g gr : GenState) (inits : List (Option Expr)) (i : Nat)
        (args : List String) (name txt : String) (rv : Expr)
        (rest : List (String × ArgKind)),
      inits.get? i = some (some rv) → "*" ∈ args →
      renderDefault g rv = .ok (gr, txt) →
      buildArgsAux g ((name, ArgKind.ARG_NAMED) :: rest) inits i args =
        buildArgsAux gr rest inits (i + 1) (args ++ [name ++ "=" ++ txt]))
    ∧ (∀ (g gr : GenState) (inits : List (Option Expr)) (i : Nat)
        (args : List String) (name txt : String) (rv : Expr)
        (rest : List (String × ArgKind)) (kind : ArgKind),
      kind ≠ ArgKind.ARG_NAMED →
      inits.get? i = some (some rv) →
      renderDefault g rv = .ok (gr, txt) →
      buildArgsAux g ((name, kind) :: rest) inits i args =
        buildArgsAux gr rest inits (i + 1) (args ++ [name ++ "=" ++ txt]))
    ∧ generate_stub_text 5
        [Stmt.funcDefStmt (FuncDef.mk "f" ["a", "b"]
          [ArgKind.ARG_POS, ArgKind.ARG_NAMED] [none, none] [])] =
      .ok "def f(a, b): pass\n"
    ∧ generate_stub_text 5
        [Stmt.funcDefStmt (FuncDef.mk "f" ["a", "b"]
          [ArgKind.ARG_POS, ArgKind.ARG_NAMED] [none, some (Expr.intExpr 3)] [])] =
      .ok "def f(a, *, b=3): pass\n" := by
  refine ⟨?_, ?_, ?_, ?_, by decide, by decide⟩
  · intro g inits i args name rest hget
    simp only [buildArgsAux]
    rw [hget]
    simp
  · intro g gr inits i args name txt rv rest hget hmem hrd
    simp only [buildArgsAux]
    rw [hget]
    simp only [hrd]
    rw [if_pos (And.intro (by trivial) hmem), List.append_assoc]
    rfl
  · intro g gr inits i args name txt rv rest hget hmem hrd
    simp only [buildArgsAux]
    rw [hget]
    simp only [hrd]
    rw [if_neg (by intro hc; exact hc.2 hmem)]
  · intro g gr inits i args name txt rv rest kind hkind hget hrd
    simp only [buildArgsAux]
    rw [hget]
    simp only [hrd]
    rw [if_neg (by intro hc; exact hkind hc.1)]

/-- C10 witness: the no-default clause applied at a concrete
keyword-only parameter. -/
theorem C10_witness :
    buildArgsAux initState [("b", ArgKind.ARG_NAMED)] [none] 0 ["a"] =
      buildArgsAux initState [] [none] 1 ["a", "b"] :=
  C10_keyword_only_rendering.1 initState [none] 0 ["a"] "b" [] rfl

/-- C9: for some well-formed input trees the generator aborts: a
class body containing two consecutive empty nested classes, and a
top-level empty class followed by a class containing an empty nested
class, both make visit_class_def read the blank-line slot index that
is never assigned on the indented path, so the run fails. -/
theorem C9_nested_empty_class_aborts :
    visit_mypy_file 10
        [Stmt.classDef "A" []
          [Stmt.classDef "B" [] [], Stmt.classDef "C" [] []]] =
      .error "UnboundLocalError: local variable sep referenced before assignment"
    ∧ visit_mypy_file 10
        [Stmt.classDef "D" [] [],
         Stmt.classDef "E" [] [Stmt.classDef "F" [] []]] =
      .error "UnboundLocalError: local variable sep referenced before assignment" := by
  exact ⟨by decide, by decide⟩

/-- C4: the conditional is skipped exactly when the condition is a
comparison whose first operand is the bare name __name__ and whose
second operand is a string literal containing the substring __main__,
for any comparison operators (the operator list is never examined, so
a comparison with a different operator such as != is also skipped —
amended from the claim, which required an equality comparison); every
condition failing this shape test is traversed normally, its branches
visited as if unconditional. -/
theorem C4_guard_ignores_operator :
    (∀ (fuel : Nat) (g : GenState) (ops : List String) (v : String)
        (t es : List Expr) (bodies : List (List Stmt)) (elseBody : List Stmt),
      strContainsSub v "__main__" = true →
      visit_if_stmt fuel g
        (Expr.comparisonExpr ops
          (Expr.nameExpr "__name__" :: Expr.strExpr v :: t) :: es)
        bodies elseBody = .ok g)
    ∧ (∀ (fuel : Nat) (g : GenState) (e : Expr) (es : List Expr)
        (bodies : List (List Stmt)) (elseBody : List Stmt),
      isEntryPointGuard e = .ok false →
      visit_if_stmt fuel g (e :: es) bodies elseBody =
        visitStmts fuel g (bodies.flatten ++ elseBody)) := by
  constructor
  · intro fuel g ops v t es bodies elseBody hm
    unfold visit_if_stmt isEntryPointGuard
    simp [hm]
  · intro fuel g e es bodies elseBody hg
    unfold visit_if_stmt
    simp [hg]

/-- C4 witness: the skip clause applied to a comparison with the
operator !=, and the traverse clause applied to a comparison with a
different name on the left. -/
theorem C4_witness :
    visit_if_stmt 3 initState
        [Expr.comparisonExpr ["!="]
          [Expr.nameExpr "__name__", Expr.strExpr "x__main__y"]]
        [[Stmt.passStmt]] [] = .ok initState
    ∧ visit_if_stmt 3 initState
        [Expr.comparisonExpr ["=="]
          [Expr.nameExpr "other", Expr.strExpr "__main__"]]
        [[Stmt.passStmt]] [] =
      visitStmts 3 initState ([[Stmt.passStmt]].flatten ++ []) := by
  exact ⟨C4_guard_ignores_operator.1 3 initState ["!="] "x__main__y" [] []
          [[Stmt.passStmt]] [] (by decide),
         C4_guard_ignores_operator.2 3 initState
          (Expr.comparisonExpr ["=="]
            [Expr.nameExpr "other", Expr.strExpr "__main__"]) []
          [[Stmt.passStmt]] [] (by decide)⟩

/-- C4 counterexample: a conditional whose condition compares
__name__ with the string __main__ using the operator != is skipped
entirely (result state unchanged), although the claim requires every
comparison other than equality to be traversed normally, which here
would emit a function stub. -/
theorem C4_counterexample :
    visit_if_stmt 6 initState
        [Expr.comparisonExpr ["!="]
          [Expr.nameExpr "__name__", Expr.strExpr "__main__"]]
        [[Stmt.funcDefStmt (FuncDef.mk "g" [] [] [] [])]] [] = .ok initState
    ∧ visitStmts 6 initState [Stmt.funcDefStmt (FuncDef.mk "g" [] [] [] [])] ≠
        .ok initState := by
  exact ⟨by decide, by decide⟩

/-- C7: a base-class reference is re-emitted exactly when it is a
bare name that occurs in the collected class-name set or ends with
Exception or Error; all other base references are dropped, and
concretely class B(A, X) with A declared in the module and X neither
declared nor suffixed renders as class B(A):. Amended from the claim
in one respect: the collector does not descend into class bodies (its
class visit does not recurse), so the collected set holds the class
names declared at module level, inside function bodies and inside
conditionals, but not classes nested inside another class. -/
theorem C7_base_class_filter :
    (∀ (g : GenState) (bases : List Expr) (n : String),
      n ∈ base_types_of g bases ↔
        (Expr.nameExpr n ∈ bases ∧
          (n ∈ g.classes ∨ strEndsWith n "Exception" = true ∨
            strEndsWith n "Error" = true)))
    ∧ generate_stub_text 8
        [Stmt.classDef "A" [] [Stmt.passStmt],
         Stmt.classDef "B" [Expr.nameExpr "A", Expr.nameExpr "X"]
           [Stmt.funcDefStmt (FuncDef.mk "m" ["self"] [ArgKind.ARG_POS] [none] [])]] =
      .ok "class A: pass\n\nclass B(A):\n    def m(self): pass\n" := by
  constructor
  · intro g bases n
    induction bases with
    | nil => simp [base_types_of]
    | cons b t ih =>
      unfold base_types_of at ih ⊢
      rw [List.filterMap_cons]
      cases b
      case nameExpr bn =>
        by_cases hc : bn ∈ g.classes ∨ strEndsWith bn "Exception" = true ∨
            strEndsWith bn "Error" = true
        · simp only [keep_base, if_pos hc, List.mem_cons, Expr.nameExpr.injEq]
          constructor
          · rintro (rfl | hmem)
            · exact ⟨Or.inl rfl, hc⟩
            · obtain ⟨hb, hk⟩ := ih.mp hmem
              exact ⟨Or.inr hb, hk⟩
          · rintro ⟨rfl | hb, hk⟩
            · exact Or.inl rfl
            · exact Or.inr (ih.mpr ⟨hb, hk⟩)
        · simp only [keep_base, if_neg hc, List.mem_cons, Expr.nameExpr.injEq]
          constructor
          · intro hmem
            obtain ⟨hb, hk⟩ := ih.mp hmem
            exact ⟨Or.inr hb, hk⟩
          · rintro ⟨rfl | hb, hk⟩
            · exact absurd hk hc
            · exact ih.mpr ⟨hb, hk⟩
      all_goals simp_all [keep_base]
  · decide

/-- C7 counterexample: Inner is a class declared in this same module
(nested inside class Outer), yet the collector does not record it, so
a class B(Inner) drops the base and renders as class B: — against the
claim, a bare-name base naming a class declared somewhere in the
module is not re-emitted when that class is nested inside another
class. -/
theorem C7_counterexample :
    find_classes 6 [Stmt.classDef "Outer" [] [Stmt.classDef "Inner" [] []]] =
      .ok ["Outer"]
    ∧ generate_stub_text 8
        [Stmt.classDef "Outer" [] [Stmt.classDef "Inner" [] []],
         Stmt.classDef "B" [Expr.nameExpr "Inner"]
           [Stmt.funcDefStmt (FuncDef.mk "m" ["self"] [ArgKind.ARG_POS] [none] [])]] =
      .ok "class Outer:\nclass Inner: pass\n\nclass B:\n    def m(self): pass\n" := by
  exact ⟨by decide, by decide⟩

theorem set_append_len (l1 l2 : List String) (a : String) :
    (l1 ++ l2).set l1.length a = l1 ++ l2.set 0 a := by
  induction l1 with
  | nil => rfl
  | cons x t ih => simp [List.set, ih]

theorem modLast_cons_of_ne (f : String → String) (x : String) (l : List String)
    (h : l ≠ []) : modLast f (x :: l) = x :: modLast f l := by
  cases l with
  | nil => exact absurd rfl h
  | cons y t => rfl

theorem modLast_append (f : String → String) (l1 l2 : List String)
    (h : l2 ≠ []) : modLast f (l1 ++ l2) = l1 ++ modLast f l2 := by
  induction l1 with
  | nil => rfl
  | cons x t ih =>
    rw [List.cons_append, modLast_cons_of_ne _ _ _ (by simp [h]), ih]
    rfl

/-- C3: for a top-level class whose body visit appends no output, the
reserved blank-line slot is retracted only when the Formatting State
is EMPTY_CLASS (the preceding top-level declaration was itself an
empty class); when the preceding declaration was of any other kind
the reserved blank line is kept (amended from the claim, which
asserted the slot is retracted whenever one was reserved); in both
cases the trailing newline of the header is rewritten into a pass
suffix so the class renders on one line. -/
theorem C3_retraction_requires_empty_class_state :
    (∀ (fuel : Nat) (g : GenState) (nm : String),
      g.indent = "" → g.state = EMPTY_CLASS →
      visit_class_def fuel g nm [] [] =
        .ok { g with output := g.output ++ ["", "class " ++ nm, ": pass\n"],
                     state := EMPTY_CLASS })
    ∧ (∀ (fuel : Nat) (g : GenState) (nm : String),
      g.indent = "" → g.state ≠ EMPTY → g.state ≠ EMPTY_CLASS →
      visit_class_def fuel g nm [] [] =
        .ok { g with output := g.output ++ ["\n", "class " ++ nm, ": pass\n"],
                     state := EMPTY_CLASS }) := by
  constructor
  · intro fuel g nm h1 h2
    obtain ⟨out, il, im, ind, vs, st, cl⟩ := g
    dsimp only at h1 h2 ⊢
    subst h1
    subst h2
    unfold visit_class_def classHeader classFooter
    rw [if_pos ⟨rfl, show EMPTY_CLASS ≠ EMPTY by decide⟩,
        if_pos ⟨rfl, show EMPTY_CLASS ≠ EMPTY by decide⟩]
    dsimp only [base_types_of, List.filterMap_nil, add]
    rw [if_neg (by simp)]
    rw [visitStmts_nil]
    dsimp only
    rw [show (("" ++ "    " : String)).dropRight 4 = "" from rfl]
    rw [if_pos (by simp)]
    rw [if_pos rfl]
    dsimp only
    simp only [List.append_assoc, List.singleton_append]
    rw [set_append_len]
    dsimp only [List.set]
    rw [modLast_append _ _ _ (by simp)]
    rfl
  · intro fuel g nm h1 h2 h3
    obtain ⟨out, il, im, ind, vs, st, cl⟩ := g
    dsimp only at h1 h2 h3 ⊢
    subst h1
    unfold visit_class_def classHeader classFooter
    rw [if_pos ⟨rfl, h2⟩, if_pos ⟨rfl, h2⟩]
    dsimp only [base_types_of, List.filterMap_nil, add]
    rw [if_neg (by simp)]
    rw [visitStmts_nil]
    dsimp only
    rw [show (("" ++ "    " : String)).dropRight 4 = "" from rfl]
    rw [if_pos (by simp)]
    rw [if_neg h3]
    dsimp only
    simp only [List.append_assoc, List.singleton_append]
    rw [modLast_append _ _ _ (by simp)]
    rfl

/-- C3 witness: the keep-the-blank-line clause applied after a
function (Formatting State FUNC), and the retraction clause applied
after an empty class (Formatting State EMPTY_CLASS). -/
theorem C3_witness :
    visit_class_def 1 { initState with state := FUNC } "C" [] [] =
      .ok { ({ initState with state := FUNC } : GenState) with
            output := ({ initState with state := FUNC } : GenState).output ++
              ["\n", "class " ++ "C", ": pass\n"],
            state := EMPTY_CLASS }
    ∧ visit_class_def 1 { initState with state := EMPTY_CLASS } "C" [] [] =
      .ok { ({ initState with state := EMPTY_CLASS } : GenState) with
            output := ({ initState with state := EMPTY_CLASS } : GenState).output ++
              ["", "class " ++ "C", ": pass\n"],
            state := EMPTY_CLASS } :=
  ⟨C3_retraction_requires_empty_class_state.2 1
      { initState with state := FUNC } "C" rfl (by decide) (by decide),
   C3_retraction_requires_empty_class_state.1 1
      { initState with state := EMPTY_CLASS } "C" rfl rfl⟩

/-- C3 counterexample: after a top-level function, an empty class
reserves a blank-line slot and does not retract it, so the rendered
module keeps the blank separator line, while the claim (retract
whenever reserved) would produce no blank line. -/
theorem C3_counterexample :
    generate_stub_text 6
        [Stmt.funcDefStmt (FuncDef.mk "f" [] [] [] []),
         Stmt.classDef "C" [] []] =
      .ok "def f(): pass\n\nclass C: pass\n"
    ∧ "def f(): pass\n\nclass C: pass\n" ≠ "def f(): pass\nclass C: pass\n" := by
  exact ⟨by decide, by decide⟩

theorem str_append_eq_empty (s t : String) : s ++ t = "" ↔ s = "" ∧ t = "" := by
  constructor
  · intro h
    have hl := congrArg String.length h
    rw [String.length_append] at hl
    simp at hl
    obtain ⟨hs, ht⟩ := hl
    refine ⟨?_, ?_⟩
    · cases s with
      | mk d =>
        cases d with
        | nil => rfl
        | cons a b => simp [String.length] at hs
    · cases t with
      | mk d =>
        cases d with
        | nil => rfl
        | cons a b => simp [String.length] at ht
  · rintro ⟨rfl, rfl⟩
    rfl

/-- C8: the serialized result equals the specified composition — the
comma-joined helper-import line when the Helper-Symbol Set is
non-empty, then the recorded wildcard-import lines verbatim in order
(duplicates preserved), then exactly one blank line when any import
material was emitted, then the output buffer fragments in emission
order; concretely, a module with a duplicated wildcard import and one
variable shows the full layout. -/
theorem C8_serialized_form :
    (∀ g : GenState, output g = spec_serialize g)
    ∧ generate_stub_text 6
        [Stmt.importAll "foo", Stmt.importAll "foo",
         Stmt.assignmentStmt [Expr.nameExpr "x"] (Expr.intExpr 1)] =
      .ok ("from typing import Undefined, Any\nfrom foo import *\n" ++
        "from foo import *\n\nx = Undefined(Any)\n") := by
  constructor
  · intro g
    obtain ⟨out, il, im, ind, vs, st, cl⟩ := g
    unfold output spec_serialize
    dsimp only
    have hj : String.join ([] : List String) = "" := rfl
    have he : ∀ s : String, "" ++ s = s := fun s => rfl
    have hH : ∀ X : String, ("from typing import " ++ X) ≠ "" := by
      intro X h
      rw [str_append_eq_empty] at h
      exact absurd h.1 (by decide)
    by_cases h1 : im = []
    · subst h1
      by_cases h2 : il = []
      · subst h2
        simp [hj, he]
      · by_cases h3 : String.join il = ""
        · simp [h2, h3]
        · simp [h2, h3, he, String.append_assoc]
    · by_cases h2 : il = []
      · subst h2
        simp [h1, String.append_assoc, hH, hj, he, String.append_empty]
      · simp [h1, h2, String.append_assoc, hH, he, String.append_empty]
  · decide

end Stubgen
